import Mathlib

/-!
Verification of the WebBrowseMCP tab tracker, action executors and heuristic
resolvers, shallowly embedded from the TypeScript source.  Browser pages are
identified by numeric handles; the external automation engine (playwright) is
modelled by oracle environments that fix the outcome of every automation call
(an `Except String _` value: `.error` is a thrown exception, `.ok` a normal
return).  Mutable module state (the recency list) is threaded explicitly.
-/

namespace WebBrowseMCP

/-- JS `String.prototype.includes` on the underlying character sequences:
`pat` occurs as a contiguous run inside `s`. -/
def containsSeq (s pat : List Char) : Bool :=
  pat.isPrefixOf s ||
    match s with
    | [] => false
    | _ :: t => containsSeq t pat

/-- JS `s.includes(pat)`. -/
def jsIncludes (s pat : String) : Bool :=
  containsSeq s.toList pat.toList

/-- JS `s.toLowerCase()` (ASCII range, which is what the compared urls and
titles use). -/
def jsToLower (s : String) : String := String.mk (s.toList.map Char.toLower)

/-- Case-insensitive containment, as in
`s.toLowerCase().includes(pat.toLowerCase())`. -/
def ciContains (s pat : String) : Bool :=
  jsIncludes (jsToLower s) (jsToLower pat)

/-- JS truthiness of an optional string argument: `undefined` and the empty
string are falsy. -/
def truthyStr : Option String → Bool
  | none => false
  | some s => s ≠ ""

/-- JS truthiness of an optional numeric argument: `undefined` and `0` are
falsy. -/
def truthyInt : Option Int → Bool
  | none => false
  | some n => n ≠ 0

/-- The uniform `{content: [{type: "text", text}], isError}` value every
executor produces (all results relevant here carry a single text item). -/
structure Result where
  text : String
  isError : Bool
  deriving Repr, DecidableEq

/-! ## Active-tab tracker (`recentTabOrder`, `updateRecentTabOrder`,
`getActivePage` in the source) -/

/-- Opaque handle of a playwright `Page` object; two handles are the same
page exactly when they are equal (JS reference equality `p !== page`). -/
abbrev PageId := Nat

/-- Observable state of one page: whether it is closed (`page.isClosed()`)
and its current url (`page.url()`). -/
structure PageState where
  closed : Bool
  url : String
  deriving Repr, DecidableEq

/-- Assignment of current state to every page handle. -/
abbrev World := PageId → PageState

/-- `browser.contexts()`: each context holds the list of its open pages in
engine enumeration order (`context.pages()`). -/
structure BrowserState where
  contexts : List (List PageId)
  deriving Repr, DecidableEq

/-- `!page.isClosed() && page.url() !== 'about:blank'`. -/
def isOpenNonBlank (w : World) (p : PageId) : Bool :=
  !(w p).closed && (w p).url != "about:blank"

/-- `updateRecentTabOrder`: remove the page if already present, add it to the
front, keep only the first 10 entries. -/
def updateRecentTabOrder (page : PageId) (recent : List PageId) : List PageId :=
  (page :: recent.filter (fun p => p ≠ page)).take 10

/-- `getActivePage`: first open non-blank page of the recency list; otherwise
the first open non-blank page over all contexts (recording it); otherwise the
very first page of the first context if it exists and is not closed
(recording it); otherwise `null`.  Returns the page found together with the
updated recency list. -/
def getActivePage (w : World) (b : BrowserState) (recent : List PageId) :
    Option PageId × List PageId :=
  match recent.find? (fun r => isOpenNonBlank w r) with
  | some r => (some r, recent)
  | none =>
    match b.contexts.flatten.find? (fun p => isOpenNonBlank w p) with
    | some p => (some p, updateRecentTabOrder p recent)
    | none =>
      match b.contexts with
      | [] => (none, recent)
      | ctx0 :: _ =>
        match ctx0 with
        | [] => (none, recent)
        | firstPage :: _ =>
          if !(w firstPage).closed then
            (some firstPage, updateRecentTabOrder firstPage recent)
          else
            (none, recent)

/-- The recency list obtained by replaying a sequence of
`updateRecentTabOrder` calls, oldest first, on the initially empty list. -/
def applyAccesses (seq : List PageId) : List PageId :=
  seq.foldl (fun st t => updateRecentTabOrder t st) []

theorem updateRecentTabOrder_nodup (t : PageId) (l : List PageId)
    (h : l.Nodup) : (updateRecentTabOrder t l).Nodup := by
  apply List.Nodup.sublist (List.take_sublist _ _)
  refine List.nodup_cons.mpr ⟨?_, h.filter _⟩
  simp [List.mem_filter]

theorem updateRecentTabOrder_length (t : PageId) (l : List PageId) :
    (updateRecentTabOrder t l).length ≤ 10 := by
  simp [updateRecentTabOrder]

theorem updateRecentTabOrder_head (t : PageId) (l : List PageId) :
    (updateRecentTabOrder t l).head? = some t := by
  simp [updateRecentTabOrder, List.take_cons]

theorem applyAccesses_nodup (seq : List PageId) : (applyAccesses seq).Nodup := by
  suffices h : ∀ (st : List PageId), st.Nodup →
      (seq.foldl (fun st t => updateRecentTabOrder t st) st).Nodup by
    exact h [] List.nodup_nil
  induction seq with
  | nil => intro st hst; simpa using hst
  | cons a rest ih =>
    intro st hst
    exact ih _ (updateRecentTabOrder_nodup a st hst)

theorem applyAccesses_length (seq : List PageId) :
    (applyAccesses seq).length ≤ 10 := by
  suffices h : ∀ (st : List PageId), st.length ≤ 10 →
      (seq.foldl (fun st t => updateRecentTabOrder t st) st).length ≤ 10 by
    exact h [] (by simp)
  induction seq with
  | nil => intro st hst; simpa using hst
  | cons a rest ih =>
    intro st _
    exact ih _ (updateRecentTabOrder_length a st)

theorem applyAccesses_append_single (seq : List PageId) (t : PageId) :
    applyAccesses (seq ++ [t]) = updateRecentTabOrder t (applyAccesses seq) := by
  simp [applyAccesses, List.foldl_append]

theorem filter_ne_of_not_mem {t : PageId} {l : List PageId} (h : t ∉ l) :
    l.filter (fun p => p ≠ t) = l := by
  apply List.filter_eq_self.mpr
  intro a ha
  simp only [ne_eq, decide_eq_true_eq]
  intro heq
  exact h (heq ▸ ha)

theorem filter_ne_length_of_mem {t : PageId} {l : List PageId}
    (hn : l.Nodup) (h : t ∈ l) :
    (l.filter (fun p => p ≠ t)).length = l.length - 1 := by
  induction l with
  | nil => cases h
  | cons a rest ih =>
    rcases List.mem_cons.mp h with rfl | hmem
    · have hnotmem := (List.nodup_cons.mp hn).1
      have hrest : rest.filter (fun p => p ≠ t) = rest :=
        filter_ne_of_not_mem hnotmem
      simp only [List.filter_cons, List.length_cons]
      rw [if_neg (by simp), hrest]
      simp
    · have hane : a ≠ t := fun heq => (List.nodup_cons.mp hn).1 (heq ▸ hmem)
      have hrest := ih (List.nodup_cons.mp hn).2 hmem
      have hpos : 0 < rest.length := List.length_pos_of_mem hmem
      rw [List.filter_cons_of_pos (by simpa using hane)]
      simp only [List.length_cons, hrest]
      omega

/-- C3: starting from the empty recency list, after every
`updateRecentTabOrder` call the list has no duplicates, has length at most
the capacity 10, and starts with the tab just recorded; recording an
already-present tab keeps the length unchanged (moved to the front, not
duplicated), and recording a fresh tab on a full list drops the oldest
entry. -/
theorem recentTabOrder_invariants (seq : List PageId) (t : PageId) :
    (applyAccesses (seq ++ [t])).Nodup ∧
    (applyAccesses (seq ++ [t])).length ≤ 10 ∧
    (applyAccesses (seq ++ [t])).head? = some t ∧
    (t ∈ applyAccesses seq →
      (applyAccesses (seq ++ [t])).length = (applyAccesses seq).length) ∧
    (t ∉ applyAccesses seq → (applyAccesses seq).length = 10 →
      applyAccesses (seq ++ [t]) = t :: (applyAccesses seq).dropLast) := by
  rw [applyAccesses_append_single]
  refine ⟨updateRecentTabOrder_nodup t _ (applyAccesses_nodup seq),
    updateRecentTabOrder_length t _, updateRecentTabOrder_head t _, ?_, ?_⟩
  · intro hmem
    have hlen := applyAccesses_length seq
    have hpos : 0 < (applyAccesses seq).length := List.length_pos_of_mem hmem
    have hf := filter_ne_length_of_mem (applyAccesses_nodup seq) hmem
    simp only [updateRecentTabOrder, List.length_take, List.length_cons, hf]
    omega
  · intro hnot hfull
    have hf := filter_ne_of_not_mem hnot
    have hdl : (applyAccesses seq).dropLast = (applyAccesses seq).take 9 := by
      rw [List.dropLast_eq_take, hfull]
    show ((t :: (applyAccesses seq).filter (fun p => p ≠ t)).take 10) =
      t :: (applyAccesses seq).dropLast
    rw [hf, hdl]
    rfl

theorem recentTabOrder_invariants_witness :
    (applyAccesses [1, 2, 3, 2]).Nodup ∧
    (applyAccesses [1, 2, 3, 2]).head? = some 2 ∧
    (2 ∈ applyAccesses [1, 2, 3] ∧
      (applyAccesses [1, 2, 3, 2]).length = (applyAccesses [1, 2, 3]).length) := by
  have h := recentTabOrder_invariants [1, 2, 3] 2
  have hmem : 2 ∈ applyAccesses [1, 2, 3] := by decide
  exact ⟨h.1, h.2.2.1, hmem, h.2.2.2.1 hmem⟩

/-- A world in which every page is open but shows `about:blank`. -/
def blankWorld : World := fun _ => ⟨false, "about:blank"⟩

/-- A browser whose first context has no pages while the second context holds
the single (blank) open page `0`. -/
def emptyFirstContextBrowser : BrowserState := ⟨[[], [0]]⟩

/-- C2 counterexample: page `0` is open (in the second context), yet
`getActivePage` returns none, because the final fallback only consults the
first context: `contexts[0].pages().length > 0` fails and the function falls
through to `return null`. -/
theorem getActivePage_open_blank_page_none :
    (getActivePage blankWorld emptyFirstContextBrowser []).1 = none ∧
    0 ∈ emptyFirstContextBrowser.contexts.flatten ∧
    (blankWorld 0).closed = false := by
  refine ⟨rfl, by decide, rfl⟩

/-- C2 (amended): `getActivePage` returns none whenever the browser has zero
pages; it returns some page whenever some context page is open and non-blank
(but an all-blank browser may yield none, as the counterexample shows); and
on a browser whose unique open non-blank page is `P` it returns `P`
regardless of the recency list, provided open recency entries are pages of
this browser and context pages are not closed. -/
theorem closed_false_of_isOpenNonBlank {w : World} {p : PageId}
    (h : isOpenNonBlank w p = true) : (w p).closed = false := by
  simp only [isOpenNonBlank, Bool.and_eq_true, Bool.not_eq_true'] at h
  exact h.1

theorem getActivePage_characterization
    (w : World) (b : BrowserState) (recent : List PageId)
    (hrec : ∀ r ∈ recent, (w r).closed = false → r ∈ b.contexts.flatten) :
    (b.contexts.flatten = [] → (getActivePage w b recent).1 = none) ∧
    ((∃ p ∈ b.contexts.flatten, isOpenNonBlank w p = true) →
      (getActivePage w b recent).1.isSome = true) ∧
    (∀ P, P ∈ b.contexts.flatten → isOpenNonBlank w P = true →
      (∀ q ∈ b.contexts.flatten, isOpenNonBlank w q = true → q = P) →
      (getActivePage w b recent).1 = some P) := by
  refine ⟨?_, ?_, ?_⟩
  · intro hflat
    have hrecNone : recent.find? (fun r => isOpenNonBlank w r) = none := by
      rw [List.find?_eq_none]
      intro r hr hop
      exact absurd (hrec r hr (closed_false_of_isOpenNonBlank hop)) (by simp [hflat])
    have hjoinNone : b.contexts.flatten.find? (fun p => isOpenNonBlank w p) = none := by
      rw [hflat]; rfl
    simp only [getActivePage, hrecNone, hjoinNone]
    match hb : b.contexts with
    | [] => rfl
    | ctx0 :: rest =>
      match hc : ctx0 with
      | [] => rfl
      | firstPage :: more =>
        exfalso
        have : firstPage ∈ b.contexts.flatten := by
          rw [hb]; simp
        rw [hflat] at this
        cases this
  · rintro ⟨p, hp, hop⟩
    cases hr : recent.find? (fun r => isOpenNonBlank w r) with
    | some r => simp [getActivePage, hr]
    | none =>
      have : (b.contexts.flatten.find? (fun q => isOpenNonBlank w q)).isSome := by
        rw [List.find?_isSome]
        exact ⟨p, hp, hop⟩
      cases hj : b.contexts.flatten.find? (fun q => isOpenNonBlank w q) with
      | none => rw [hj] at this; cases this
      | some q => simp [getActivePage, hr, hj]
  · intro P hP hop huniq
    cases hr : recent.find? (fun r => isOpenNonBlank w r) with
    | some r =>
      have hpr : isOpenNonBlank w r = true := List.find?_some hr
      have hmem : r ∈ recent := List.mem_of_find?_eq_some hr
      have : r = P := huniq r (hrec r hmem (closed_false_of_isOpenNonBlank hpr)) hpr
      simp [getActivePage, hr, this]
    | none =>
      have hsome : (b.contexts.flatten.find? (fun q => isOpenNonBlank w q)).isSome := by
        rw [List.find?_isSome]
        exact ⟨P, hP, hop⟩
      cases hj : b.contexts.flatten.find? (fun q => isOpenNonBlank w q) with
      | none => rw [hj] at hsome; cases hsome
      | some q =>
        have hq : isOpenNonBlank w q = true := List.find?_some hj
        have hqm : q ∈ b.contexts.flatten := List.mem_of_find?_eq_some hj
        have : q = P := huniq q hqm hq
        simp [getActivePage, hr, hj, this]

/-- A world whose pages all show a real url and are open. -/
def singlePageWorld : World := fun _ => ⟨false, "https://example.com"⟩

/-- A browser with one context holding the single page `0`. -/
def singlePageBrowser : BrowserState := ⟨[[0]]⟩

theorem getActivePage_characterization_witness :
    (getActivePage singlePageWorld singlePageBrowser []).1 = some 0 :=
  (getActivePage_characterization singlePageWorld singlePageBrowser []
    (by intro r hr; cases hr)).2.2 0 (by decide) (by decide)
    (by intro q hq _; simpa [singlePageBrowser] using hq)

/-! ## `callNavigate` and `callGetHtml`

Neither function wraps its automation call in `try`/`catch`, so a rejected
`page.goto` or `page.content` promise escapes to the caller.  The embedding
therefore gives them the type `Except String (Result × List PageId)`:
`.error` is an exception propagating out of the executor, `.ok` a returned
`Result` together with the updated recency list. -/

/-- Oracle for one `callNavigate` run: the browser snapshot, the outcome of
`page.goto(url)` per page, the outcome of `browser.newContext()` +
`context.newPage()`, and the handle the fresh page would get. -/
structure NavigateEnv where
  world : World
  browser : BrowserState
  recent : List PageId
  gotoRes : PageId → Except String Unit
  newPageRes : Except String Unit
  freshPage : PageId

/-- `callNavigate`: resolve the active page (creating a context and page if
none), `await page.goto(url)` unguarded, then record the tab and return the
confirmation text. -/
def callNavigate (env : NavigateEnv) (url : String) :
    Except String (Result × List PageId) :=
  match getActivePage env.world env.browser env.recent with
  | (some page, recent1) =>
    match env.gotoRes page with
    | .error msg => .error msg
    | .ok _ =>
      .ok (⟨s!"Navigated to {url}", false⟩, updateRecentTabOrder page recent1)
  | (none, recent1) =>
    match env.newPageRes with
    | .error msg => .error msg
    | .ok _ =>
      match env.gotoRes env.freshPage with
      | .error msg => .error msg
      | .ok _ =>
        .ok (⟨s!"Navigated to {url}", false⟩,
          updateRecentTabOrder env.freshPage recent1)

/-- `callGetHtml`: resolve the active page (returning an `isError` result if
none), then `await page.content()` unguarded. -/
def callGetHtml (w : World) (b : BrowserState) (recent : List PageId)
    (contentRes : PageId → Except String String) :
    Except String (Result × List PageId) :=
  match getActivePage w b recent with
  | (none, recent1) => .ok (⟨"No active page to get HTML from", true⟩, recent1)
  | (some page, recent1) =>
    match contentRes page with
    | .error msg => .error msg
    | .ok html => .ok (⟨html, false⟩, recent1)

/-- A navigate environment with one open non-blank page whose `goto` call
fails. -/
def failingGotoEnv : NavigateEnv where
  world := singlePageWorld
  browser := singlePageBrowser
  recent := []
  gotoRes := fun _ => .error "net::ERR_CONNECTION_REFUSED"
  newPageRes := .ok ()
  freshPage := 1

/-- C1 counterexample: with an active page present and `page.goto` failing,
`callNavigate` propagates the exception to its caller instead of returning an
`isError` result; similarly `callGetHtml` propagates a failing
`page.content`. -/
theorem navigate_goto_failure_escapes :
    callNavigate failingGotoEnv "https://example.org" =
      Except.error "net::ERR_CONNECTION_REFUSED" ∧
    callGetHtml singlePageWorld singlePageBrowser []
      (fun _ => Except.error "Target closed") = Except.error "Target closed" := by
  constructor <;> rfl

/-- C1 (amended): `callNavigate` propagates any failure of the `goto`
automation call on the resolved page as an exception (it never converts it
into an `isError` result), and `callGetHtml` likewise propagates any failure
of `content`; the JSON-RPC dispatcher, not the executor, is what catches
these.  (The remaining executors guard their automation calls and return
`Result` values.) -/
theorem navigate_getHtml_propagate_failures
    (env : NavigateEnv) (url msg : String) (page : PageId) (rec1 : List PageId)
    (hresolve : getActivePage env.world env.browser env.recent = (some page, rec1))
    (hfail : env.gotoRes page = .error msg) :
    callNavigate env url = Except.error msg ∧
    ∀ (w : World) (b : BrowserState) (recent : List PageId)
      (contentRes : PageId → Except String String) (p : PageId)
      (r1 : List PageId) (m : String),
      getActivePage w b recent = (some p, r1) → contentRes p = .error m →
      callGetHtml w b recent contentRes = Except.error m := by
  constructor
  · unfold callNavigate
    rw [hresolve]
    simp [hfail]
  · intro w b recent contentRes p r1 m hres hc
    unfold callGetHtml
    rw [hres]
    simp [hc]

theorem navigate_getHtml_propagate_failures_witness :
    callNavigate failingGotoEnv "https://example.org" =
      Except.error "net::ERR_CONNECTION_REFUSED" :=
  (navigate_getHtml_propagate_failures failingGotoEnv "https://example.org"
    "net::ERR_CONNECTION_REFUSED" 0 [0] (by decide) rfl).1

/-! ## `callClick` and the ambiguous-click resolver -/

/-- `true` exactly on a normally-resolved automation call. -/
def exceptOk : Except String Unit → Bool
  | .ok _ => true
  | .error _ => false

/-- Oracle state of one element matched by the selector: the results of
`isVisible()` / `isEnabled()` and the outcomes of `waitFor` and of
`scrollIntoViewIfNeeded()+click()` on it. -/
structure Elem where
  visible : Bool
  enabled : Bool
  waitRes : Except String Unit
  clickRes : Except String Unit

/-- Oracle for one `callClick` run: the outcome of `locator.count()` and the
state of every matched element (indexed as `locator.nth(i)`). -/
structure ClickEnv where
  countRes : Except String Nat
  elems : Nat → Elem

/-- Maximal digit run at the head of a character list (`\d+`). -/
def digitRun (l : List Char) : List Char := l.takeWhile Char.isDigit

/-- Attempt the regex `resolved to (\d+) elements` at the head of `l`. -/
def resolvedCountAt (l : List Char) : Option String :=
  if ("resolved to ".toList).isPrefixOf l then
    let rest := l.drop 12
    let ds := digitRun rest
    if ds.isEmpty then none
    else if (" elements".toList).isPrefixOf (rest.drop ds.length) then
      some ds.asString
    else none
  else none

/-- First match of `/resolved to (\d+) elements/` anywhere in the list, as
`String.prototype.match` finds it. -/
def findResolvedCount : List Char → Option String
  | [] => none
  | c :: t =>
    match resolvedCountAt (c :: t) with
    | some s => some s
    | none => findResolvedCount t

/-- The outer `catch` of `callClick`: a strict-mode-violation message gets the
more helpful text (with the element count extracted by the regex, or
`multiple`), anything else the generic failure text. -/
def clickOuterCatch (selector msg : String) : Result :=
  if jsIncludes msg "strict mode violation" then
    let elementCount := (findResolvedCount msg.toList).getD "multiple"
    ⟨s!"Failed to click {selector}: Found {elementCount} matching elements. Try using a more specific selector or use the nth parameter (e.g., nth=0 for first element)", true⟩
  else
    ⟨s!"Failed to click {selector}: {msg}", true⟩

/-- Element `i` would be clicked by the linear fallback scan: visible,
enabled, and the click on it resolves (a throw is caught and the scan
continues). -/
def clickableOk (env : ClickEnv) (i : Nat) : Bool :=
  (env.elems i).visible && (env.elems i).enabled && exceptOk (env.elems i).clickRes

/-- The fallback `for (let i = 0; i < count; i++)` scan: first index whose
element is visible, enabled and whose click succeeds. -/
def scanClickable (env : ClickEnv) (count : Nat) : Option Nat :=
  (List.range count).find? (fun i => clickableOk env i)

/-- Fallback after an unclickable randomly-chosen element: click the first
clickable match, else report that none is clickable. -/
def clickScanFallback (env : ClickEnv) (selector : String) (count targetIndex : Nat) :
    Result :=
  match scanClickable env count with
  | some i =>
    ⟨s!"Clicked on {selector} (element {i} of {count} - fallback after random target {targetIndex} was not clickable)", false⟩
  | none =>
    ⟨s!"No clickable elements found among {count} matches for {selector}", true⟩

/-- The `catch (targetError)` handler: an explicit `nth` fails outright; a
random selection falls back to the first element in document order
(`element.first()`), whose own failure yields the combined error. -/
def clickTargetError (env : ClickEnv) (selector : String) (count : Nat)
    (nth : Option Int) (msg : String) : Result :=
  match nth with
  | some n => ⟨s!"Failed to click element {n} matching {selector}: {msg}", true⟩
  | none =>
    match (env.elems 0).waitRes with
    | .error m2 =>
      ⟨s!"Failed to click any of {count} elements matching {selector}. Random target error: {msg}, Fallback error: {m2}", true⟩
    | .ok _ =>
      match (env.elems 0).clickRes with
      | .error m2 =>
        ⟨s!"Failed to click any of {count} elements matching {selector}. Random target error: {msg}, Fallback error: {m2}", true⟩
      | .ok _ =>
        ⟨s!"Clicked on {selector} (first of {count} elements - fallback after random selection failed)", false⟩

/-- `selectionMethod` when the index came from the random draw. -/
def randomMethodMsg (targetIndex count : Nat) : String :=
  s!"randomly selected ({targetIndex} of {count})"

/-- `selectionMethod` when the caller supplied the index. -/
def specifiedMethodMsg (n : Int) : String :=
  s!"specified nth={n}"

/-- The success text of a disambiguated click naming the clicked index and
the selection method. -/
def clickSuccessMsg (selector : String) (targetIndex count : Nat)
    (selectionMethod : String) : String :=
  s!"Clicked on {selector} (element {targetIndex} of {count} - {selectionMethod})"

/-- The shared attempt on the chosen target element (explicit or random):
wait for it, check visibility and enabledness, then click; failures route to
the scan fallback or the target-error handler as in the source. -/
def clickAttemptTarget (env : ClickEnv) (selector : String) (count : Nat)
    (nth : Option Int) (targetIndex : Nat) (selectionMethod : String) : Result :=
  match (env.elems targetIndex).waitRes with
  | .error msg => clickTargetError env selector count nth msg
  | .ok _ =>
    let vis := (env.elems targetIndex).visible
    let en := (env.elems targetIndex).enabled
    if !(vis && en) then
      match nth with
      | some n =>
        ⟨s!"Element {n} matching {selector} is not clickable (visible: {vis}, enabled: {en})", true⟩
      | none => clickScanFallback env selector count targetIndex
    else
      match (env.elems targetIndex).clickRes with
      | .ok _ =>
        ⟨clickSuccessMsg selector targetIndex count selectionMethod, false⟩
      | .error msg => clickTargetError env selector count nth msg

/-- `callClick`: count the matches; zero fails, one is clicked directly
(ignoring `nth`), several are disambiguated by the explicit index when given
(validated against `[0, count)`) or by the random draw `rand` (the value of
`Math.floor(Math.random() * count)`). -/
def callClick (env : ClickEnv) (selector : String) (nth : Option Int)
    (rand : Nat) : Result :=
  match env.countRes with
  | .error msg => clickOuterCatch selector msg
  | .ok count =>
    if count = 0 then
      ⟨s!"No elements found matching selector: {selector}", true⟩
    else if count = 1 then
      match (env.elems 0).waitRes with
      | .error msg => clickOuterCatch selector msg
      | .ok _ =>
        match (env.elems 0).clickRes with
        | .error msg => clickOuterCatch selector msg
        | .ok _ => ⟨s!"Clicked on {selector}", false⟩
    else
      match nth with
      | some n =>
        if n < 0 ∨ (count : Int) ≤ n then
          ⟨s!"Invalid nth value: {n}. Must be between 0 and {count - 1} (found {count} elements)", true⟩
        else
          clickAttemptTarget env selector count (some n) n.toNat (specifiedMethodMsg n)
      | none =>
        clickAttemptTarget env selector count none rand (randomMethodMsg rand count)

/-- A selector matching exactly one element, which is clickable. -/
def singleClickableEnv : ClickEnv where
  countRes := .ok 1
  elems := fun _ => ⟨true, true, .ok (), .ok ()⟩

/-- C4 counterexample: with one match, an explicit `nth = 5` lies outside
`[0, 1)`, yet the call succeeds — the single-element path never looks at
`nth`, so no range failure is produced. -/
theorem click_nth_ignored_single_match :
    callClick singleClickableEnv "button.submit" (some 5) 0 =
      ⟨"Clicked on button.submit", false⟩ ∧
    ¬((0 : Int) ≤ 5 ∧ (5 : Int) < (1 : Nat)) := by
  refine ⟨rfl, by decide⟩

/-- C4 (amended): `callClick` with zero matches always fails; with at least
two matches an explicit `nth` outside `[0, count)` fails with the message
naming the valid range `0` to `count - 1`, and an in-range explicit `nth`
whose element is not visible-and-enabled fails immediately with no fallback
substitution; with exactly one match the explicit index is ignored entirely
(the call behaves as if no index was supplied). -/
theorem click_count_and_nth_checks (env : ClickEnv) (selector : String)
    (count : Nat) (n : Int) (rand : Nat)
    (hcount : env.countRes = .ok count) :
    (count = 0 → callClick env selector (some n) rand =
      ⟨s!"No elements found matching selector: {selector}", true⟩) ∧
    (2 ≤ count → (n < 0 ∨ (count : Int) ≤ n) →
      callClick env selector (some n) rand =
        ⟨s!"Invalid nth value: {n}. Must be between 0 and {count - 1} (found {count} elements)", true⟩) ∧
    (2 ≤ count → 0 ≤ n → n < (count : Int) →
      (env.elems n.toNat).waitRes = .ok () →
      ((env.elems n.toNat).visible && (env.elems n.toNat).enabled) = false →
      callClick env selector (some n) rand =
        ⟨s!"Element {n} matching {selector} is not clickable (visible: {(env.elems n.toNat).visible}, enabled: {(env.elems n.toNat).enabled})", true⟩) ∧
    (count = 1 →
      callClick env selector (some n) rand = callClick env selector none rand) := by
  refine ⟨?_, ?_, ?_, ?_⟩
  · intro h0
    subst h0
    simp [callClick, hcount]
  · intro h2 hrange
    have h0 : count ≠ 0 := by omega
    have h1 : count ≠ 1 := by omega
    simp only [callClick, hcount, if_neg h0, if_neg h1]
    rw [if_pos hrange]
  · intro h2 hlo hhi hwait hvis
    have h0 : count ≠ 0 := by omega
    have h1 : count ≠ 1 := by omega
    have hnr : ¬(n < 0 ∨ (count : Int) ≤ n) := by omega
    simp only [callClick, hcount, if_neg h0, if_neg h1, if_neg hnr]
    simp only [clickAttemptTarget, hwait]
    rw [if_pos (by simp [hvis])]
  · intro h1
    subst h1
    simp [callClick, hcount]

theorem click_count_and_nth_checks_witness :
    callClick singleClickableEnv "button.submit" (some 5) 0 =
      callClick singleClickableEnv "button.submit" none 0 :=
  (click_count_and_nth_checks singleClickableEnv "button.submit" 1 5 0 rfl).2.2.2 rfl

theorem find_range_first {p : Nat → Bool} {count i : Nat} (hic : i < count)
    (hp : p i = true) (hlt : ∀ j, j < i → p j = false) :
    (List.range count).find? p = some i := by
  have hsplit : count = i + (count - i) := by omega
  rw [hsplit, List.range_add, List.find?_append]
  have h2 : (List.range i).find? p = none := by
    rw [List.find?_eq_none]
    intro x hx
    rw [hlt x (List.mem_range.mp hx)]
    simp
  rw [h2]
  obtain ⟨k, hk⟩ : ∃ k, count - i = k + 1 := ⟨count - i - 1, by omega⟩
  rw [hk, List.range_succ_eq_map, List.map_cons,
    List.find?_cons_of_pos _ (by simpa using hp)]
  simp

/-- C5: with several matches and no explicit index, the used index is the
random draw `rand` (any value of `Math.floor(Math.random() * count)`, hence
any index in `[0, count)`): a clickable draw is clicked and reported as
randomly selected; an unclickable draw makes the resolver scan linearly and
click the first element that is visible, enabled and accepts the click,
reported as a fallback; a draw whose click throws falls back to the first
element in document order; and every success message names the clicked index
and the way it was selected. -/
theorem click_random_fallback_behavior (env : ClickEnv) (selector : String)
    (count rand : Nat) (hcount : env.countRes = .ok count)
    (h2 : 2 ≤ count) (hr : rand < count) :
    ((env.elems rand).waitRes = .ok () →
      ((env.elems rand).visible && (env.elems rand).enabled) = true →
      (env.elems rand).clickRes = .ok () →
      callClick env selector none rand =
        ⟨clickSuccessMsg selector rand count (randomMethodMsg rand count), false⟩) ∧
    ((env.elems rand).waitRes = .ok () →
      ((env.elems rand).visible && (env.elems rand).enabled) = false →
      ∀ i, i < count → clickableOk env i = true →
        (∀ j, j < i → clickableOk env j = false) →
        callClick env selector none rand =
          ⟨s!"Clicked on {selector} (element {i} of {count} - fallback after random target {rand} was not clickable)", false⟩) ∧
    ((env.elems rand).waitRes = .ok () →
      ((env.elems rand).visible && (env.elems rand).enabled) = true →
      ∀ msg, (env.elems rand).clickRes = .error msg →
        (env.elems 0).waitRes = .ok () → (env.elems 0).clickRes = .ok () →
        callClick env selector none rand =
          ⟨s!"Clicked on {selector} (first of {count} elements - fallback after random selection failed)", false⟩) ∧
    (∀ res, callClick env selector none rand = res → res.isError = false →
      res.text = clickSuccessMsg selector rand count (randomMethodMsg rand count) ∨
      (∃ i, i < count ∧ res.text = s!"Clicked on {selector} (element {i} of {count} - fallback after random target {rand} was not clickable)") ∨
      res.text = s!"Clicked on {selector} (first of {count} elements - fallback after random selection failed)") := by
  have h0 : count ≠ 0 := by omega
  have h1 : count ≠ 1 := by omega
  refine ⟨?_, ?_, ?_, ?_⟩
  · intro hwait hvis hclick
    simp only [callClick, clickAttemptTarget.eq_def, hcount, if_neg h0, if_neg h1,
      hwait, hvis, hclick]
    simp
  · intro hwait hvis i hic hi hfirst
    have hscan : scanClickable env count = some i := find_range_first hic hi hfirst
    simp only [callClick, clickAttemptTarget.eq_def, hcount, if_neg h0, if_neg h1,
      hwait, hvis, clickScanFallback.eq_def, hscan]
    simp
  · intro hwait hvis msg hclick hw0 hc0
    simp only [callClick, clickAttemptTarget.eq_def, hcount, if_neg h0, if_neg h1,
      hwait, hvis, hclick, clickTargetError.eq_def, hw0, hc0]
    simp
  · intro res hres hfalse
    simp only [callClick, clickAttemptTarget.eq_def, hcount, if_neg h0, if_neg h1]
      at hres
    split at hres
    · -- target waitFor threw: first-element fallback
      simp only [clickTargetError.eq_def] at hres
      split at hres
      · subst hres; simp at hfalse
      · split at hres
        · subst hres; simp at hfalse
        · subst hres
          right; right; rfl
    · -- target waitFor resolved
      split at hres
      · -- target not clickable: linear scan fallback
        simp only [clickScanFallback.eq_def] at hres
        split at hres
        case _ i heq =>
          subst hres
          exact Or.inr (Or.inl
            ⟨i, List.mem_range.mp (List.mem_of_find?_eq_some heq), rfl⟩)
        case _ heq =>
          subst hres; simp at hfalse
      · -- target clickable: click it, or fall back to the first element
        split at hres
        · subst hres
          left; rfl
        · simp only [clickTargetError.eq_def] at hres
          split at hres
          · subst hres; simp at hfalse
          · split at hres
            · subst hres; simp at hfalse
            · subst hres
              right; right; rfl

/-- A selector matching three elements where the random draw (index 1) is not
clickable and index 0 is disabled, so the linear fallback clicks index 2. -/
def scanFallbackEnv : ClickEnv where
  countRes := .ok 3
  elems := fun i =>
    if i = 2 then ⟨true, true, .ok (), .ok ()⟩ else ⟨true, false, .ok (), .ok ()⟩

theorem click_random_fallback_behavior_witness :
    callClick scanFallbackEnv "a.link" none 1 =
      ⟨"Clicked on a.link (element 2 of 3 - fallback after random target 1 was not clickable)", false⟩ :=
  (click_random_fallback_behavior scanFallbackEnv "a.link" 3 1 rfl (by decide)
    (by decide)).2.1 rfl (by decide) 2 (by decide) (by decide)
    (by intro j hj; interval_cases j <;> decide)

/-! ## Public dispatch of the click tool (C10) -/

/-- The arguments object of a `tools/call` request for `click` as the
dispatcher sees it: it may carry any fields (here an optional index), but
`handleToolCall` reads only `toolArguments.selector`. -/
structure ClickArgs where
  selector : String
  nth : Option Int

/-- The `case 'click'` arm of `handleToolCall`:
`helpers.callClick(browser, toolArguments.selector)` — the third parameter
is never passed, so `nth` is `undefined`. -/
def handleClickTool (env : ClickEnv) (args : ClickArgs) (rand : Nat) : Result :=
  callClick env args.selector none rand

/-- The property names of the click tool's declared input schema in
`toolsList`. -/
def clickToolProperties : List String := ["selector"]

/-- The first-element fallback of the random path (the `catch (targetError)`
handler as it behaves when no explicit index was requested). -/
def clickRandomFirstFallback (env : ClickEnv) (selector : String)
    (count : Nat) (msg : String) : Result :=
  match (env.elems 0).waitRes with
  | .error m2 =>
    ⟨s!"Failed to click any of {count} elements matching {selector}. Random target error: {msg}, Fallback error: {m2}", true⟩
  | .ok _ =>
    match (env.elems 0).clickRes with
    | .error m2 =>
      ⟨s!"Failed to click any of {count} elements matching {selector}. Random target error: {msg}, Fallback error: {m2}", true⟩
    | .ok _ =>
      ⟨s!"Clicked on {selector} (first of {count} elements - fallback after random selection failed)", false⟩

/-- Spec-side resolver for C10: the ambiguous-click behaviour as the spec
says it is reachable through the public interface — no explicit-index branch
exists at all; several matches are always disambiguated by the random draw
with the scan and first-element fallbacks. -/
def clickNoExplicit (env : ClickEnv) (selector : String) (rand : Nat) : Result :=
  match env.countRes with
  | .error msg => clickOuterCatch selector msg
  | .ok count =>
    if count = 0 then
      ⟨s!"No elements found matching selector: {selector}", true⟩
    else if count = 1 then
      match (env.elems 0).waitRes with
      | .error msg => clickOuterCatch selector msg
      | .ok _ =>
        match (env.elems 0).clickRes with
        | .error msg => clickOuterCatch selector msg
        | .ok _ => ⟨s!"Clicked on {selector}", false⟩
    else
      match (env.elems rand).waitRes with
      | .error msg => clickRandomFirstFallback env selector count msg
      | .ok _ =>
        if !((env.elems rand).visible && (env.elems rand).enabled) then
          clickScanFallback env selector count rand
        else
          match (env.elems rand).clickRes with
          | .ok _ =>
            ⟨clickSuccessMsg selector rand count (randomMethodMsg rand count), false⟩
          | .error msg => clickRandomFirstFallback env selector count msg

/-- C10: through `tools/call` the click executor always receives
`nth = undefined` — the dispatcher passes only the selector and the click
tool schema declares no index property — so the explicit-index branch of the
resolver is unreachable and the dispatched behaviour coincides with the
index-free random-with-fallback resolver. -/
theorem dispatch_click_never_explicit (env : ClickEnv) (args : ClickArgs)
    (rand : Nat) :
    handleClickTool env args rand = callClick env args.selector none rand ∧
    handleClickTool env args rand = clickNoExplicit env args.selector rand ∧
    "nth" ∉ clickToolProperties ∧ "index" ∉ clickToolProperties := by
  refine ⟨rfl, ?_, by decide, by decide⟩
  rfl

/-! ## `callSearch`: find-and-type phase (state FINDING_INPUT/TYPING) -/

/-- Oracle for one selector during one attempt of the search resolver:
outcome of `element.waitFor` (throws of `waitFor`, `focus`, `selectText`,
`type` or `inputValue` all land in the same `catch` and are collapsed into
the two `Except` fields), the `isVisible()` / `isEnabled()` answers, and the
value `element.inputValue()` re-reads after typing. -/
structure SelEnv where
  waitRes : Except String Unit
  visible : Bool
  enabled : Bool
  typeRes : Except String String

/-- The priority-ordered search-bar selector list of `callSearch`. -/
def searchSelectors : List String :=
  ["input[type=\"search\"]",
   "input[name=\"q\"]",
   "input[name=\"query\"]",
   "input[name=\"search\"]",
   "input[role=\"searchbox\"]",
   "[role=\"searchbox\"]",
   "input[aria-label*=\"search\" i]",
   "input[aria-label*=\"Search\" i]",
   "input[placeholder*=\"search\" i]",
   "input[placeholder*=\"Search\" i]",
   "input[placeholder*=\"find\" i]",
   "#search",
   "#searchbox",
   "#search-input",
   "#q",
   ".search-input",
   ".searchbox",
   ".search-field",
   "input[class*=\"search\"]",
   "input[id*=\"search\"]",
   "form input[type=\"text\"]",
   "header input[type=\"text\"]",
   "nav input[type=\"text\"]"]

/-- One pass of the inner `for (const selector of searchSelectors)` loop:
returns the first selector whose element is reachable, interactable, and
whose re-read value equals the requested text, accumulating the per-selector
diagnostics exactly as the source pushes them. -/
def trySelectorsOnce (env1 : String → SelEnv) (searchText : String) :
    List String → List String → Option String × List String
  | [], errs => (none, errs)
  | sel :: rest, errs =>
    match (env1 sel).waitRes with
    | .error msg =>
      trySelectorsOnce env1 searchText rest
        (errs ++ [s!"Selector {sel} failed: {msg}"])
    | .ok _ =>
      if (env1 sel).visible && (env1 sel).enabled then
        match (env1 sel).typeRes with
        | .error msg =>
          trySelectorsOnce env1 searchText rest
            (errs ++ [s!"Selector {sel} failed: {msg}"])
        | .ok enteredText =>
          if enteredText = searchText then (some sel, errs)
          else
            trySelectorsOnce env1 searchText rest
              (errs ++ [s!"Text verification failed for {sel}. Expected: \"{searchText}\", Got: \"{enteredText}\""])
      else
        trySelectorsOnce env1 searchText rest
          (errs ++ [s!"Element not interactable: {sel} - visible: {(env1 sel).visible}, enabled: {(env1 sel).enabled}"])

/-- The outer retry loop (`for attempt in 0..retryAttempts`), indexed by the
remaining attempt count and the current attempt number. -/
def searchTypeLoop (env : Nat → String → SelEnv) (searchText : String) :
    Nat → Nat → List String → Option String × List String
  | 0, _, errs => (none, errs)
  | n + 1, attempt, errs =>
    match trySelectorsOnce (env attempt) searchText searchSelectors errs with
    | (some sel, errs2) => (some sel, errs2)
    | (none, errs2) => searchTypeLoop env searchText n (attempt + 1) errs2

/-- Outcome of the find-and-type phase: either the early-return failure
result (no submission is ever attempted), or control proceeds to the
submission states with the recorded `usedSelector`. -/
inductive SearchPhase where
  | noSearchBar (failureText : String)
  | submitting (usedSelector : String)
  deriving Repr, DecidableEq

/-- `errors.slice(-5)`. -/
def lastFive (l : List String) : List String := l.drop (l.length - 5)

/-- The aggregated failure text of the early return. -/
def searchFailureText (errs : List String) : String :=
  let joined := String.intercalate "; " (lastFive errs)
  s!"Failed to find accessible search bar. Errors: {joined}"

/-- The find-and-type phase of `callSearch`: if no selector round-trips the
text across all attempts, return the failure result; otherwise proceed to
submission with the selector that worked. -/
def callSearchTypePhase (env : Nat → String → SelEnv) (searchText : String)
    (retryAttempts : Nat) : SearchPhase :=
  match searchTypeLoop env searchText retryAttempts 0 [] with
  | (none, errs) => .noSearchBar (searchFailureText errs)
  | (some sel, _) => .submitting sel

theorem trySelectors_some {env1 : String → SelEnv} {txt : String}
    {sel : String} :
    ∀ {sels errs errs2 : List String},
    trySelectorsOnce env1 txt sels errs = (some sel, errs2) →
    sel ∈ sels ∧ (env1 sel).waitRes = .ok () ∧
    ((env1 sel).visible && (env1 sel).enabled) = true ∧
    (env1 sel).typeRes = .ok txt := by
  intro sels
  induction sels with
  | nil =>
    intro errs errs2 h
    simp [trySelectorsOnce] at h
  | cons s0 rest ih =>
    intro errs errs2 h
    rw [trySelectorsOnce] at h
    split at h
    next msg heq =>
      obtain ⟨hmem, h2, h3, h4⟩ := ih h
      exact ⟨List.mem_cons_of_mem _ hmem, h2, h3, h4⟩
    next u heq =>
      split at h
      case isTrue hvis =>
        split at h
        next msg heq2 =>
          obtain ⟨hmem, h2, h3, h4⟩ := ih h
          exact ⟨List.mem_cons_of_mem _ hmem, h2, h3, h4⟩
        next entered heq2 =>
          split at h
          case isTrue hent =>
            obtain ⟨rfl, rfl⟩ : s0 = sel ∧ errs = errs2 := by
              have h7 := h
              injection h7 with h5 h6
              exact ⟨by injection h5, h6⟩
            refine ⟨List.mem_cons_self _ _, ?_, hvis, ?_⟩
            · cases u
              exact heq
            · rw [heq2, hent]
          case isFalse hent =>
            obtain ⟨hmem, h2, h3, h4⟩ := ih h
            exact ⟨List.mem_cons_of_mem _ hmem, h2, h3, h4⟩
      case isFalse hvis =>
        obtain ⟨hmem, h2, h3, h4⟩ := ih h
        exact ⟨List.mem_cons_of_mem _ hmem, h2, h3, h4⟩

theorem searchTypeLoop_some {env : Nat → String → SelEnv} {txt sel : String} :
    ∀ {n attempt : Nat} {errs errs2 : List String},
    searchTypeLoop env txt n attempt errs = (some sel, errs2) →
    ∃ i, attempt ≤ i ∧ i < attempt + n ∧
      ∃ e3 e4, trySelectorsOnce (env i) txt searchSelectors e3 = (some sel, e4) := by
  intro n
  induction n with
  | zero =>
    intro attempt errs errs2 h
    simp [searchTypeLoop] at h
  | succ m ih =>
    intro attempt errs errs2 h
    rw [searchTypeLoop] at h
    split at h
    case _ s e2 heq =>
      obtain ⟨rfl, rfl⟩ : s = sel ∧ e2 = errs2 := by
        have := h
        injection this with h5 h6
        exact ⟨by injection h5, h6⟩
      exact ⟨attempt, Nat.le_refl _, by omega, errs, e2, heq⟩
    case _ e2 heq =>
      obtain ⟨i, h2, h3, hy⟩ := ih h
      exact ⟨i, by omega, by omega, hy⟩

/-- C6: whenever the search resolver leaves the find-and-type phase towards
submission, the reported `usedSelector` is one of the catalog selectors and,
on some attempt, its element was reachable, visible and enabled, and the
value re-read from it after typing equals the requested search text exactly;
if no selector passes this round-trip check, the resolver returns the
failure result and submission is never attempted. -/
theorem search_submit_requires_roundtrip
    (env : Nat → String → SelEnv) (searchText : String) (retryAttempts : Nat)
    (sel : String)
    (h : callSearchTypePhase env searchText retryAttempts = .submitting sel) :
    sel ∈ searchSelectors ∧
    ∃ i, i < retryAttempts ∧
      (env i sel).waitRes = .ok () ∧
      ((env i sel).visible && (env i sel).enabled) = true ∧
      (env i sel).typeRes = .ok searchText := by
  rw [callSearchTypePhase] at h
  split at h
  · cases h
  case _ s e2 heq =>
    obtain rfl : s = sel := by injection h
    obtain ⟨i, hle, hlt, e3, e4, hy⟩ := searchTypeLoop_some heq
    obtain ⟨hmem, h2, h3, h4⟩ := trySelectors_some hy
    exact ⟨hmem, i, by omega, h2, h3, h4⟩

/-- A page whose only reachable search box is `input[name="q"]` and whose
typed value reads back verbatim. -/
def searchBoxEnv : Nat → String → SelEnv := fun _ s =>
  if s = "input[name=\"q\"]" then ⟨.ok (), true, true, .ok "lean theorem prover"⟩
  else ⟨.error "Timeout 217ms exceeded", false, false, .error "unreachable"⟩

theorem search_submit_requires_roundtrip_witness :
    "input[name=\"q\"]" ∈ searchSelectors ∧
    ∃ i, i < 3 ∧
      (searchBoxEnv i "input[name=\"q\"]").waitRes = .ok () ∧
      ((searchBoxEnv i "input[name=\"q\"]").visible &&
        (searchBoxEnv i "input[name=\"q\"]").enabled) = true ∧
      (searchBoxEnv i "input[name=\"q\"]").typeRes = .ok "lean theorem prover" :=
  search_submit_requires_roundtrip searchBoxEnv "lean theorem prover" 3
    "input[name=\"q\"]" (by decide)

/-! ## `callGoBack` / `callGoForward` -/

/-- Outcome of the i-th `page.goBack()` / `page.goForward()` call: either the
navigation call threw (timeout etc.), or the page landed on the given url and
title, which the loop then re-reads. -/
inductive NavStep where
  | threw (msg : String)
  | landed (url title : String)

/-- `steps || (targetUrl || targetTitle ? 10 : 1)`: a truthy (nonzero) caller
step count wins, otherwise 10 with a target and 1 without. -/
def maxStepsOf (steps : Option Int) (targetUrl targetTitle : Option String) :
    Int :=
  if truthyInt steps then steps.getD 0
  else if truthyStr targetUrl || truthyStr targetTitle then 10 else 1

/-- `target && current.toLowerCase().includes(target.toLowerCase())`. -/
def targetHit (target : Option String) (current : String) : Bool :=
  truthyStr target && ciContains current (target.getD "")

/-- The history-traversal loop shared by `callGoBack` and `callGoForward`
(their bodies are identical except for direction): check the targets before
stepping, perform the step (a throw breaks the loop), check the targets on
the new location, and stop when the url did not change.  Arguments: remaining
iterations (`maxSteps - i`), current step index, steps taken, current url and
title; returns steps taken and the final url and title. -/
def navLoop (env : Nat → NavStep) (targetUrl targetTitle : Option String) :
    Nat → Nat → Nat → String → String → Nat × String × String
  | 0, _, taken, url, title => (taken, url, title)
  | fuel + 1, i, taken, url, title =>
    if targetHit targetUrl url then (taken, url, title)
    else if targetHit targetTitle title then (taken, url, title)
    else
      match env i with
      | .threw _ => (taken, url, title)
      | .landed newUrl newTitle =>
        if targetHit targetUrl newUrl then (taken + 1, newUrl, newTitle)
        else if targetHit targetTitle newTitle then (taken + 1, newUrl, newTitle)
        else if newUrl = url then (taken + 1, newUrl, newTitle)
        else navLoop env targetUrl targetTitle fuel (i + 1) (taken + 1) newUrl newTitle

/-- `step`/`steps` pluralisation of the result message. -/
def stepsWord (n : Nat) : String := if n = 1 then "" else "s"

/-- The success message of a history navigation that took at least one step
(`dir` is `back` or `forward`). -/
def navResultMessage (dir : String) (targetUrl targetTitle : Option String)
    (n : Nat) (finalUrl finalTitle : String) : String :=
  let w := stepsWord n
  let base := s!"Navigated {dir} {n} step{w}"
  let tu := targetUrl.getD ""
  let tt := targetTitle.getD ""
  let base2 :=
    if targetHit targetUrl finalUrl then base ++ s!"\nReached target URL: {tu}"
    else if targetHit targetTitle finalTitle then
      base ++ s!"\nReached target title: {tt}"
    else if truthyStr targetUrl || truthyStr targetTitle then
      base ++ s!"\nTarget not found, stopped after {n} steps"
    else base
  base2 ++ s!"\nFinal URL: {finalUrl}\nFinal Title: \"{finalTitle}\""

/-- The zero-steps message (`boundary` is `beginning` or `end`). -/
def navZeroStepsMessage (dir boundary : String) (finalUrl finalTitle : String) :
    String :=
  s!"Unable to navigate {dir}. Already at target or {boundary} of history.\nCurrent URL: {finalUrl}\nCurrent Title: \"{finalTitle}\""

/-- `callGoBack`: fail with `isError` only when no page resolves; otherwise
run the loop and always report a non-error result. -/
def callGoBack (page : Option (String × String)) (env : Nat → NavStep)
    (targetUrl targetTitle : Option String) (steps : Option Int) : Result :=
  match page with
  | none => ⟨"No active page to navigate back from", true⟩
  | some (url0, title0) =>
    let maxSteps := maxStepsOf steps targetUrl targetTitle
    let r := navLoop env targetUrl targetTitle maxSteps.toNat 0 0 url0 title0
    let n := r.1
    let fu := r.2.1
    let ft := r.2.2
    if n = 0 then ⟨navZeroStepsMessage "back" "beginning" fu ft, false⟩
    else ⟨navResultMessage "back" targetUrl targetTitle n fu ft, false⟩

/-- `callGoForward`: identical control flow with the direction words
changed. -/
def callGoForward (page : Option (String × String)) (env : Nat → NavStep)
    (targetUrl targetTitle : Option String) (steps : Option Int) : Result :=
  match page with
  | none => ⟨"No active page to navigate forward from", true⟩
  | some (url0, title0) =>
    let maxSteps := maxStepsOf steps targetUrl targetTitle
    let r := navLoop env targetUrl targetTitle maxSteps.toNat 0 0 url0 title0
    let n := r.1
    let fu := r.2.1
    let ft := r.2.2
    if n = 0 then ⟨navZeroStepsMessage "forward" "end" fu ft, false⟩
    else ⟨navResultMessage "forward" targetUrl targetTitle n fu ft, false⟩

theorem navLoop_taken_le (env : Nat → NavStep) (tu tt : Option String) :
    ∀ (fuel i taken : Nat) (url title : String),
    (navLoop env tu tt fuel i taken url title).1 ≤ taken + fuel := by
  intro fuel
  induction fuel with
  | zero => intro i taken url title; simp [navLoop]
  | succ m ih =>
    intro i taken url title
    rw [navLoop]
    split
    · omega
    · split
      · omega
      · split
        · omega
        · split
          · omega
          · split
            · omega
            · split
              · omega
              · exact Nat.le_trans (ih (i + 1) (taken + 1) _ _) (by omega)

/-- An environment whose first traversal lands on a different url, as any
ordinary history step does. -/
def oneStepBackEnv : Nat → NavStep := fun _ => .landed "https://b.com" "B"

/-- C7 counterexample: the caller supplies `steps = 0`, but `steps || ...`
treats `0` as absent and defaults to 1, so one traversal is performed — more
than the caller-supplied bound of 0. -/
theorem goBack_zero_steps_takes_default_step :
    (navLoop oneStepBackEnv none none
        (maxStepsOf (some 0) none none).toNat 0 0 "https://a.com" "A").1 = 1 ∧
    (callGoBack (some ("https://a.com", "A")) oneStepBackEnv none none
        (some 0)).text =
      "Navigated back 1 step\nFinal URL: https://b.com\nFinal Title: \"B\"" ∧
    ¬(1 : Int) ≤ 0 := by
  refine ⟨rfl, rfl, by decide⟩

/-- C7 (amended): with an active page, `go_back`/`go_forward` always return a
non-error result; the loop performs at most `maxSteps` traversals, where
`maxSteps` is the caller-supplied step count if given and nonzero, otherwise
10 when a target url/title is given and 1 when not (a supplied 0 therefore
falls back to the default, and a negative value yields no traversals); a
traversal that leaves the url unchanged stops the loop immediately; and with
a target given the loop stops as soon as the current url or title contains
it case-insensitively, both before and after a step. -/
theorem history_nav_bounds_and_stops
    (env : Nat → NavStep) (tu tt : Option String) (steps : Option Int)
    (url0 title0 : String) :
    ((callGoBack (some (url0, title0)) env tu tt steps).isError = false ∧
      (callGoForward (some (url0, title0)) env tu tt steps).isError = false) ∧
    (navLoop env tu tt (maxStepsOf steps tu tt).toNat 0 0 url0 title0).1 ≤
      (maxStepsOf steps tu tt).toNat ∧
    (∀ (fuel i taken : Nat) (url title t2 : String),
      env i = .landed url t2 → truthyStr tu = false → truthyStr tt = false →
      navLoop env tu tt (fuel + 1) i taken url title = (taken + 1, url, t2)) ∧
    (∀ (fuel i taken : Nat) (url title : String),
      targetHit tu url = true →
      navLoop env tu tt (fuel + 1) i taken url title = (taken, url, title)) ∧
    (∀ (fuel i taken : Nat) (url title u2 t2 : String),
      env i = .landed u2 t2 →
      targetHit tu url = false → targetHit tt title = false →
      targetHit tu u2 = true →
      navLoop env tu tt (fuel + 1) i taken url title = (taken + 1, u2, t2)) := by
  refine ⟨⟨?_, ?_⟩, ?_, ?_, ?_, ?_⟩
  · simp only [callGoBack]
    split <;> rfl
  · simp only [callGoForward]
    split <;> rfl
  · have h := navLoop_taken_le env tu tt (maxStepsOf steps tu tt).toNat 0 0 url0 title0
    omega
  · intro fuel i taken url title t2 henv hu ht
    rw [navLoop, henv]
    simp [targetHit, hu, ht]
  · intro fuel i taken url title hhit
    rw [navLoop]
    simp [hhit]
  · intro fuel i taken url title u2 t2 henv hu ht hhit
    rw [navLoop, henv]
    simp [hu, ht, hhit]

/-- An environment stuck at the same url (history boundary). -/
def stuckNavEnv : Nat → NavStep := fun _ => .landed "https://x.com" "X"

theorem history_nav_bounds_and_stops_witness :
    navLoop stuckNavEnv none none 3 0 0 "https://x.com" "Home" =
      (1, "https://x.com", "X") :=
  (history_nav_bounds_and_stops stuckNavEnv none none (some 3)
    "https://x.com" "Home").2.2.1 2 0 0 "https://x.com" "Home" "X" rfl rfl rfl

/-! ## `callSwitchTab` -/

/-- One entry of `getAllTabs`: the page handle with its url and title, plus
the outcome of `page.bringToFront()` on it. -/
structure Tab where
  id : PageId
  url : String
  title : String
  bringRes : Except String Unit

/-- One line of the tab listing: `index: "title" - url`. -/
def tabLine (i : Nat) (t : Tab) : String := s!"{i}: \"{t.title}\" - {t.url}"

/-- The joined tab listing (`tabInfo.map(...).join` with newlines). -/
def tabListText (tabs : List Tab) : String :=
  String.intercalate "\n" (tabs.mapIdx (fun i t => tabLine i t))

/-- `(tab.title && title.toLowerCase().includes(arg.toLowerCase())) ||
(tab.url && url.toLowerCase().includes(arg.toLowerCase()))`. -/
def tabMatches (arg : String) (t : Tab) : Bool :=
  (t.title ≠ "" && ciContains t.title arg) || (t.url ≠ "" && ciContains t.url arg)

/-- `callSwitchTab`: zero tabs fail; a falsy target lists the tabs without
switching; otherwise the first matching tab (title or url, case-insensitive)
is brought to front and recorded, a missing match fails with the listing,
and a throwing `bringToFront` is caught as the generic failure. -/
def callSwitchTab (tabs : List Tab) (recent : List PageId)
    (target : Option String) : Result × List PageId :=
  let listText := tabListText tabs
  if tabs.length = 0 then
    (⟨"No tabs found. Browser may not be properly initialized.", true⟩, recent)
  else if truthyStr target = false then
    (⟨s!"Current tabs:\n{listText}", false⟩, recent)
  else
    let arg := target.getD ""
    match tabs.find? (fun t => tabMatches arg t) with
    | none =>
      (⟨s!"Tab \"{arg}\" not found.\nCurrent tabs:\n{listText}", true⟩, recent)
    | some tab =>
      match tab.bringRes with
      | .error msg => (⟨s!"Error managing tabs: {msg}", true⟩, recent)
      | .ok _ =>
        (⟨s!"Switched to tab: \"{tab.title}\" - {tab.url}", false⟩,
          updateRecentTabOrder tab.id recent)

/-- C8 counterexample: with zero open tabs, `switch_tab` without an argument
returns an `isError` failure instead of a non-error listing. -/
theorem switchTab_no_tabs_errors :
    (callSwitchTab [] [] none).1 =
      ⟨"No tabs found. Browser may not be properly initialized.", true⟩ ∧
    (callSwitchTab [] [] none).1.isError = true := ⟨rfl, rfl⟩

theorem find_first_get? {α : Type} {p : α → Bool} :
    ∀ {l : List α} {k : Nat} {x : α},
    l.get? k = some x → p x = true →
    (∀ j y, j < k → l.get? j = some y → p y = false) →
    l.find? p = some x := by
  intro l
  induction l with
  | nil => intro k x hget; simp at hget
  | cons a t ih =>
    intro k x hget hp hfirst
    cases k with
    | zero =>
      obtain rfl : a = x := by simpa using hget
      exact List.find?_cons_of_pos _ hp
    | succ m =>
      have ha : p a = false := hfirst 0 a (Nat.succ_pos m) rfl
      rw [List.find?_cons_of_neg _ (by simp [ha])]
      exact ih (by simpa using hget) hp
        (fun j y hj hy => hfirst (j + 1) y (by omega) (by simpa using hy))

/-- C8 (amended): with at least one open tab, `switch_tab` with no (or a
falsy) argument returns a non-error listing of all tabs without switching
and leaves the recency list untouched; with an argument it brings to front
the first tab in enumeration order whose title or url contains the argument
case-insensitively and reports the switch (provided `bringToFront`
resolves); and with no matching tab it returns a failure whose text lists
all tabs.  With zero tabs every call fails. -/
theorem switchTab_behavior (tabs : List Tab) (recent : List PageId)
    (arg : String) (hne : tabs ≠ []) :
    (callSwitchTab tabs recent none =
      (⟨s!"Current tabs:\n{tabListText tabs}", false⟩, recent)) ∧
    (arg ≠ "" → ∀ k tab, tabs.get? k = some tab →
      tabMatches arg tab = true →
      (∀ j y, j < k → tabs.get? j = some y → tabMatches arg y = false) →
      tab.bringRes = .ok () →
      callSwitchTab tabs recent (some arg) =
        (⟨s!"Switched to tab: \"{tab.title}\" - {tab.url}", false⟩,
          updateRecentTabOrder tab.id recent)) ∧
    (arg ≠ "" → tabs.find? (fun t => tabMatches arg t) = none →
      callSwitchTab tabs recent (some arg) =
        (⟨s!"Tab \"{arg}\" not found.\nCurrent tabs:\n{tabListText tabs}", true⟩,
          recent)) := by
  have hlen : tabs.length ≠ 0 := fun h => hne (List.length_eq_zero.mp h)
  refine ⟨?_, ?_, ?_⟩
  · simp [callSwitchTab, hlen, truthyStr]
  · intro harg k tab hget hmatch hfirst hbring
    have hfind : tabs.find? (fun t => tabMatches arg t) = some tab :=
      find_first_get? hget hmatch hfirst
    have htr : truthyStr (some arg) = true := by simpa [truthyStr] using harg
    simp only [callSwitchTab, if_neg hlen, htr, Bool.true_eq_false, if_neg,
      Option.getD_some, hfind, hbring]
    simp
  · intro harg hfind
    have htr : truthyStr (some arg) = true := by simpa [truthyStr] using harg
    simp only [callSwitchTab, if_neg hlen, htr, Bool.true_eq_false, if_neg,
      Option.getD_some, hfind]
    simp

/-- The two tabs of the spec scenario, both with a working `bringToFront`. -/
def scenarioTabs : List Tab :=
  [⟨0, "https://github.com", "GitHub", .ok ()⟩,
   ⟨1, "https://docs.example.com", "Docs", .ok ()⟩]

theorem switchTab_behavior_witness :
    callSwitchTab scenarioTabs [] (some "github") =
      (⟨"Switched to tab: \"GitHub\" - https://github.com", false⟩, [0]) := by
  have h := (switchTab_behavior scenarioTabs [] "github" (by simp [scenarioTabs])).2.1
    (by decide) 0 ⟨0, "https://github.com", "GitHub", .ok ()⟩ rfl (by decide)
    (by intro j y hj hy; omega) rfl
  exact h

/-! ## `extractStructuredContent`: paragraph extraction -/

/-- JS `String.prototype.trim` (whitespace stripped from both ends). -/
def jsTrim (s : String) : String :=
  String.mk
    ((s.toList.dropWhile Char.isWhitespace).reverse.dropWhile
      Char.isWhitespace).reverse

/-- The `paragraphs.forEach` loop: trim each paragraph, keep it only when
its length is positive and at most `maxParagraphLength`, and (when
deduplication is on) skip texts already seen, recording kept ones. -/
def extractParagraphsGo (maxParagraphLength : Nat) (dedup : Bool)
    (seen : List String) : List String → List String
  | [] => []
  | p :: rest =>
    let text := jsTrim p
    if 0 < text.length ∧ text.length ≤ maxParagraphLength then
      if !dedup || !(seen.contains text) then
        text ::
          extractParagraphsGo maxParagraphLength dedup
            (if dedup then text :: seen else seen) rest
      else extractParagraphsGo maxParagraphLength dedup seen rest
    else extractParagraphsGo maxParagraphLength dedup seen rest

/-- The `content.paragraphs` array produced by `extractStructuredContent`
from the page paragraphs `ps`. -/
def extractParagraphs (ps : List String) (maxParagraphLength : Nat)
    (dedup : Bool) : List String :=
  extractParagraphsGo maxParagraphLength dedup [] ps

theorem extractParagraphsGo_sound {maxLen : Nat} {dedup : Bool} :
    ∀ {ps : List String} {seen : List String} {s : String},
    s ∈ extractParagraphsGo maxLen dedup seen ps →
    0 < s.length ∧ s.length ≤ maxLen ∧ ∃ p ∈ ps, s = jsTrim p := by
  intro ps
  induction ps with
  | nil => intro seen s h; simp [extractParagraphsGo] at h
  | cons q rest ih =>
    intro seen s h
    rw [extractParagraphsGo] at h
    split at h
    case isTrue hlen =>
      split at h
      case isTrue hnew =>
        rcases List.mem_cons.mp h with rfl | hmem
        · exact ⟨hlen.1, hlen.2, q, List.mem_cons_self _ _, rfl⟩
        · obtain ⟨h1, h2, p, hp, h3⟩ := ih hmem
          exact ⟨h1, h2, p, List.mem_cons_of_mem _ hp, h3⟩
      case isFalse hnew =>
        obtain ⟨h1, h2, p, hp, h3⟩ := ih h
        exact ⟨h1, h2, p, List.mem_cons_of_mem _ hp, h3⟩
    case isFalse hlen =>
      obtain ⟨h1, h2, p, hp, h3⟩ := ih h
      exact ⟨h1, h2, p, List.mem_cons_of_mem _ hp, h3⟩

theorem extractParagraphsGo_complete {maxLen : Nat} {dedup : Bool} :
    ∀ {ps : List String} {seen : List String} {p : String},
    p ∈ ps → 0 < (jsTrim p).length → (jsTrim p).length ≤ maxLen →
    jsTrim p ∈ extractParagraphsGo maxLen dedup seen ps ∨
      (dedup = true ∧ jsTrim p ∈ seen) := by
  intro ps
  induction ps with
  | nil => intro seen p h; cases h
  | cons q rest ih =>
    intro seen p hmem hpos hle
    rw [extractParagraphsGo]
    rcases List.mem_cons.mp hmem with rfl | hrest
    · rw [if_pos ⟨hpos, hle⟩]
      by_cases hnew : (!dedup || !(seen.contains (jsTrim p))) = true
      · rw [if_pos hnew]
        exact Or.inl (List.mem_cons_self _ _)
      · rw [if_neg hnew]
        simp at hnew
        exact Or.inr hnew
    · split
      case isTrue hlen =>
        split
        case isTrue hnew =>
          rcases ih hrest hpos hle with hin | ⟨hd, hseen⟩
          · exact Or.inl (List.mem_cons_of_mem _ hin)
          · rw [hd] at hseen
            simp only [if_true] at hseen
            rcases List.mem_cons.mp hseen with heq | hseen2
            · exact Or.inl (by rw [heq]; exact List.mem_cons_self _ _)
            · exact Or.inr ⟨hd, hseen2⟩
        case isFalse hnew =>
          exact ih hrest hpos hle
      case isFalse hlen =>
        exact ih hrest hpos hle

/-- C9: every paragraph kept by `extractStructuredContent` is the trimmed
text of a page paragraph and its length is positive and at most
`maxParagraphLength` — an over-long paragraph never appears in any form
(no truncation); and every paragraph whose trimmed text is non-empty and
within the limit does appear in the result (with deduplication it appears
exactly as its first occurrence). -/
theorem paragraph_length_filter (ps : List String) (maxParagraphLength : Nat)
    (dedup : Bool) :
    (∀ s ∈ extractParagraphs ps maxParagraphLength dedup,
      0 < s.length ∧ s.length ≤ maxParagraphLength ∧ ∃ p ∈ ps, s = jsTrim p) ∧
    (∀ p ∈ ps, 0 < (jsTrim p).length → (jsTrim p).length ≤ maxParagraphLength →
      jsTrim p ∈ extractParagraphs ps maxParagraphLength dedup) := by
  constructor
  · intro s hs
    exact extractParagraphsGo_sound hs
  · intro p hp hpos hle
    rcases extractParagraphsGo_complete hp hpos hle with hin | ⟨_, hseen⟩
    · exact hin
    · cases hseen

/-- The spec scenario: a 50-character paragraph against
`maxParagraphLength = 10`, next to a short paragraph. -/
def scenarioParagraphs : List String :=
  ["This paragraph has quite clearly more than ten ch.", "short one"]

theorem paragraph_length_filter_witness :
    "short one" ∈ extractParagraphs scenarioParagraphs 10 true ∧
    extractParagraphs scenarioParagraphs 10 true = ["short one"] := by
  constructor
  · have h := (paragraph_length_filter scenarioParagraphs 10 true).2
      "short one" (by simp [scenarioParagraphs]) (by decide) (by decide)
    simpa using h
  · decide

end WebBrowseMCP
